import Mathlib

/-!
Shallow embedding of the repository's single source file
`src/extractor/extractor/querier.py` (class `Querier`).

Modelling conventions:
* Python strings are `List Char`; Python `None` is `Option.none`;
  a raised exception is an `Except.error` value.
* The parsed XML tree produced by the library call
  `defusedxml.ElementTree.fromstring` is modelled by the inductive
  `XmlElem`.  After parsing, ElementTree stores element tags in the
  universal form `{uri}local`; tags of `XmlElem` values are such strings.
* Logging calls are side-effect free instrumentation and are omitted.
-/

/-- Python `str.split("/")`: split at every `/`, keeping empty pieces
(`"".split("/") == [""]`, `"/".split("/") == ["", ""]`). -/
def pySplit (cs : List Char) : List (List Char) :=
  List.foldr
    (fun c acc =>
      if c = '/' then [] :: acc
      else
        match acc with
        | g :: rest => (c :: g) :: rest
        | [] => [[c]])
    [[]] cs

/-- Python `"/".join(xs)`. -/
def joinSlash (xs : List (List Char)) : List Char :=
  (List.intersperse ['/'] xs).flatten

/-- Python `str.lstrip("/")`: remove every leading `/` character. -/
def pyLstripSlash (cs : List Char) : List Char :=
  cs.dropWhile (fun c => c = '/')

/-- A parsed XML element: a tag (in ElementTree's `{uri}local` universal
form), the element's direct text content (`none` when the parser stored no
text, e.g. for `<a/>` or `<a></a>`), and the list of child elements in
document order. -/
inductive XmlElem : Type where
  | node : List Char → Option (List Char) → List XmlElem → XmlElem

/-- The element's tag. -/
def XmlElem.tag : XmlElem → List Char
  | .node t _ _ => t

/-- The element's direct text content (`element.text` in Python). -/
def XmlElem.text : XmlElem → Option (List Char)
  | .node _ tx _ => tx

/-- The element's children in document order. -/
def XmlElem.children : XmlElem → List XmlElem
  | .node _ _ cs => cs

/-- The IRS e-file namespace URI used by `Querier.__init__`. -/
def efileURI : List Char := String.toList "http://www.irs.gov/efile"

/-- The `Querier` class: a namespace table and a parsed tree. -/
structure Querier : Type where
  _namespaces : List (List Char × List Char)
  _tree : XmlElem

/-- `Querier.__init__`: store the fixed single-entry namespace mapping and
the parsed tree. -/
def Querier.init (tree : XmlElem) : Querier :=
  { _namespaces := [(String.toList "efile", efileURI)], _tree := tree }

/-- `Querier._add_namespace`: prepend the fixed root segment
`efile:ReturnData` and qualify every segment of the caller's path with
`efile:`; the path is first `lstrip`-ped of all leading slashes and then
split on `/`. -/
def _add_namespace (path : List Char) : List Char :=
  joinSlash
    (String.toList "efile:ReturnData" ::
      (pySplit (pyLstripSlash path)).map
        (fun tag => String.toList "efile:" ++ tag))

/-! ### ElementTree path search

`Querier.find_str` calls `self._tree.find(fullPath, namespaces=self._namespaces)`.
For the paths this program builds — nonempty `/`-separated segments, each of
the shape `efile:<text>` — ElementTree's path engine tokenizes the path into
those segments, replaces the prefix before the first `:` of each segment by
`{uri}` using the namespaces mapping (raising SyntaxError when the prefix is
not in the mapping), and then selects children level by level in document
order; `find` returns the first match.  The subset model below covers exactly
these tag-only paths (no `.`/`..`/`*`/`//`/predicate tokens can arise, because
qualification makes every segment start with `efile:`). -/

/-- Look up a namespace prefix in the namespaces mapping. -/
def nsGet (ns : List (List Char × List Char)) (p : List Char) : Option (List Char) :=
  match ns.find? (fun e => e.1 = p) with
  | some e => some e.2
  | none => none

/-- Resolve one path segment against the namespaces mapping, as ElementTree's
tokenizer does: a segment already in `{uri}local` form is kept; a segment
containing `:` has the text before the first `:` looked up as a namespace
prefix (`none` models the SyntaxError raised for an unknown prefix); any
other segment is a plain tag. -/
def resolveSeg (ns : List (List Char × List Char)) (seg : List Char) : Option (List Char) :=
  if seg.head? = some '{' then some seg
  else if seg.contains ':' then
    match nsGet ns (seg.takeWhile (fun c => c ≠ ':')) with
    | some uri => some ('{' :: (uri ++ '}' :: (seg.dropWhile (fun c => c ≠ ':')).tail))
    | none => none
  else some seg

/-- One level of ElementTree child selection: from each element of the
current result list, in order, keep the children whose tag equals `t`. -/
def selectChildren (t : List Char) (es : List XmlElem) : List XmlElem :=
  (es.map (fun e => e.children.filter (fun c => c.tag = t))).flatten

/-- `element.find` on resolved tag segments: walk the segments level by
level starting from `[root]` and return the first match in document order,
or `none` when there is no match.  The root element itself is never a
match for a relative path: selection always starts at the root's children. -/
def etFind (root : XmlElem) (segs : List (List Char)) : Option XmlElem :=
  (segs.foldl (fun es t => selectChildren t es) [root]).head?

/-- The exceptions this program can raise during a lookup: `unknownNs` is
the SyntaxError ElementTree raises for a namespace prefix missing from the
mapping; `valueError` is the ValueError raised by Python's `int()` and
`float()` on malformed numeric text. -/
inductive PyErr : Type where
  | unknownNs : PyErr
  | valueError : PyErr
deriving DecidableEq

/-- `Querier.find_str`: qualify the path, search the tree, and return
`element.text` of the first match — `Except.ok none` both when no element
matches and when the matched element's stored text is `None`. -/
def Querier.find_str (q : Querier) (path : List Char) : Except PyErr (Option (List Char)) :=
  match (pySplit (_add_namespace path)).mapM (resolveSeg q._namespaces) with
  | none => .error .unknownNs
  | some segs =>
    match etFind q._tree segs with
    | none => .ok none
    | some e => .ok e.text

/-! ### Python numeric conversion

`find_int` calls Python's `int(rawValue)` and `find_float` calls
`float(rawValue)`; both raise ValueError on malformed text.  The grammar is
modelled over ASCII: surrounding whitespace is stripped, an optional sign is
allowed, digits may be separated by single underscores.  (`float` also
accepts `inf`/`infinity`/`nan` case-insensitively and decimal/exponent
forms; its IEEE-754 result value is not modelled — only acceptance, which is
all the lookups' control flow depends on.) -/

/-- ASCII decimal digit test. -/
def isPyDigit (c : Char) : Bool :=
  '0' ≤ c && c ≤ '9'

/-- ASCII whitespace stripped by `int()`/`float()`. -/
def isPyWs (c : Char) : Bool :=
  c = ' ' || c = '\t' || c = '\n' || c = '\r' || c = '\x0b' || c = '\x0c'

/-- Strip leading and trailing whitespace. -/
def pyStripWs (cs : List Char) : List Char :=
  ((cs.dropWhile isPyWs).reverse.dropWhile isPyWs).reverse

/-- Accumulate the remaining digits of an integer literal after at least one
digit has been read; a single `_` is allowed only between two digits. -/
def intDigitsU : Nat → List Char → Option Nat
  | acc, [] => some acc
  | acc, c :: rest =>
    if isPyDigit c then intDigitsU (10 * acc + (c.toNat - 48)) rest
    else if c = '_' then
      match rest with
      | d :: rest2 =>
        if isPyDigit d then intDigitsU (10 * acc + (d.toNat - 48)) rest2 else none
      | [] => none
    else none

/-- Python `int(s)` for base-10 text: strip whitespace, optional sign, then
a nonempty digit string with optional single underscores between digits.
`none` models the ValueError raised on any other text. -/
def pyIntParse (cs : List Char) : Option Int :=
  match pyStripWs cs with
  | '+' :: rest =>
    match rest with
    | c :: rest2 =>
      if isPyDigit c then (intDigitsU (c.toNat - 48) rest2).map (fun n => (n : Int))
      else none
    | [] => none
  | '-' :: rest =>
    match rest with
    | c :: rest2 =>
      if isPyDigit c then (intDigitsU (c.toNat - 48) rest2).map (fun n => -(n : Int))
      else none
    | [] => none
  | c :: rest =>
    if isPyDigit c then (intDigitsU (c.toNat - 48) rest).map (fun n => (n : Int))
    else none
  | [] => none

/-- Consume the continuation of a digit run (digits, with single `_`
separators between digits); returns how many characters were consumed and
the rest of the input. -/
def munchCont : List Char → Nat × List Char
  | [] => (0, [])
  | c :: rest =>
    if isPyDigit c then
      match munchCont rest with
      | (n, r) => (n + 1, r)
    else if c = '_' then
      match rest with
      | d :: rest2 =>
        if isPyDigit d then
          match munchCont rest2 with
          | (n, r) => (n + 2, r)
        else (0, c :: rest)
      | [] => (0, [c])
    else (0, c :: rest)

/-- Consume a maximal digit run starting with a digit; `(0, input)` when the
input does not start with a digit. -/
def munchDigitsU : List Char → Nat × List Char
  | [] => (0, [])
  | c :: rest =>
    if isPyDigit c then
      match munchCont rest with
      | (n, r) => (n + 1, r)
    else (0, c :: rest)

/-- ASCII lower-casing, for `float`'s case-insensitive `inf`/`nan` forms. -/
def asciiLower (c : Char) : Char :=
  if 'A' ≤ c && c ≤ 'Z' then Char.ofNat (c.toNat + 32) else c

/-- Does Python `float(s)` accept the text?  Strip whitespace, optional
sign, then `inf`/`infinity`/`nan` (case-insensitive) or a decimal literal
`digits [. digits] [exponent]` / `. digits [exponent]` with at least one
mantissa digit, where the exponent is `e`/`E`, an optional sign and a
nonempty digit run; underscores are allowed only between digits. -/
def pyFloatAccepts (cs : List Char) : Bool :=
  match pyStripWs cs with
  | [] => false
  | c0 :: rest0 =>
    match (if c0 = '+' || c0 = '-' then rest0 else c0 :: rest0) with
    | body =>
      if (body.map asciiLower = String.toList "inf"
          || body.map asciiLower = String.toList "infinity"
          || body.map asciiLower = String.toList "nan") then true
      else
        match munchDigitsU body with
        | (n1, r1) =>
          match (match r1 with
                 | '.' :: afterDot => munchDigitsU afterDot
                 | _ => (0, r1)) with
          | (n2, r2) =>
            if n1 + n2 = 0 then false
            else
              match r2 with
              | [] => true
              | e0 :: restE =>
                if e0 = 'e' || e0 = 'E' then
                  match (match restE with
                         | c1 :: rr => if c1 = '+' || c1 = '-' then rr else c1 :: rr
                         | [] => []) with
                  | expBody =>
                    match munchDigitsU expBody with
                    | (n3, r3) => decide (0 < n3) && decide (r3 = [])
                else false

/-- `Querier.find_int`: string lookup, then `int(rawValue)` unless the
lookup answered `None`. -/
def Querier.find_int (q : Querier) (path : List Char) : Except PyErr (Option Int) :=
  match q.find_str path with
  | .error e => .error e
  | .ok none => .ok none
  | .ok (some s) =>
    match pyIntParse s with
    | some n => .ok (some n)
    | none => .error .valueError

/-- `Querier.find_float`: string lookup, then `float(rawValue)` unless the
lookup answered `None`.  The successful result carries the accepted text
(the IEEE-754 value itself is outside the model). -/
def Querier.find_float (q : Querier) (path : List Char) : Except PyErr (Option (List Char)) :=
  match q.find_str path with
  | .error e => .error e
  | .ok none => .ok none
  | .ok (some s) =>
    if pyFloatAccepts s then .ok (some s) else .error .valueError

/-- State-passing form of the `find_str` method: the method body assigns no
attribute of `self`, so the post-state it returns is the receiver
unchanged. -/
def Querier.find_strS (q : Querier) (path : List Char) :
    Except PyErr (Option (List Char)) × Querier :=
  (q.find_str path, q)

/-! ### Construction (`Querier.from_file`)

The factory reads the whole content, then runs

    while not content.startswith("<"):
        content = content[1:]

and parses the remainder.  In Python, `""[1:]` is `""` and
`"".startswith("<")` is `False`, so on content with no `<` the loop runs
forever.  The loop is embedded with an explicit iteration bound
(`stripLoop`): `none` means the loop has not exited within that many
iterations.  Since one iteration removes one character, `content.length`
iterations are always enough when a `<` is present, and `stripLoop` returns
`none` at every bound exactly when the source loop diverges.  The XML parser
(`ElementTree.fromstring`, library code) is a parameter `parse0`; `from_file`
applies it to the sanitized text (UTF-8 encoding is injective and is left
implicit). -/

/-- Python `content.startswith("<")`. -/
def startsWithLt (cs : List Char) : Bool :=
  cs.head? = some '<'

/-- The sanitize loop, with an explicit iteration bound: return the current
content as soon as it starts with `<`; otherwise drop one character, `fuel`
times at most.  `none` means the bound was reached without the guard ever
becoming true. -/
def stripLoop : Nat → List Char → Option (List Char)
  | 0, cs => if startsWithLt cs then some cs else none
  | n + 1, cs => if startsWithLt cs then some cs else stripLoop n cs.tail

/-- Outcome of `Querier.from_file`: the sanitize loop never terminates, the
parser raises (malformed XML), or a `Querier` is returned. -/
inductive FromFileResult : Type where
  | diverges : FromFileResult
  | parseError : FromFileResult
  | ok : Querier → FromFileResult

/-- `Querier.from_file`: sanitize, parse, wrap.  `parse0` stands for the
library parser `ElementTree.fromstring` (`none` models a parse exception). -/
def from_file (parse0 : List Char → Option XmlElem) (content : List Char) :
    FromFileResult :=
  match stripLoop content.length content with
  | none => .diverges
  | some s =>
    match parse0 s with
    | none => .parseError
    | some tree => .ok (Querier.init tree)

/-! ### Specification-side definitions (for refinement comparison) -/

/-- Strip all leading slashes, written by direct recursion. -/
def stripLeadingSlashes : List Char → List Char
  | [] => []
  | c :: rest => if c = '/' then stripLeadingSlashes rest else c :: rest

/-- The path-qualification algorithm exactly as the specification words it,
with step 1 read literally: "strip any single leading slash" removes one
leading slash at most. -/
def spec_qualify_singleStrip (path : List Char) : List Char :=
  joinSlash
    (String.toList "efile:ReturnData" ::
      (pySplit (match path with | '/' :: rest => rest | cs => cs)).map
        (fun tag => String.toList "efile:" ++ tag))

/-- The specification's qualification algorithm with step 1 amended to
strip all leading slashes (the minimal change the code forces). -/
def spec_qualify_allStrip (path : List Char) : List Char :=
  joinSlash
    (String.toList "efile:ReturnData" ::
      (pySplit (stripLeadingSlashes path)).map
        (fun tag => String.toList "efile:" ++ tag))

/-- Abbreviation: the characters of a string literal. -/
def toL (s : String) : List Char := s.toList

/-- A tag in ElementTree's parsed universal form for the efile namespace. -/
def qtag (t : String) : List Char := '{' :: (efileURI ++ '}' :: t.toList)

/-! ### Concrete documents used by witnesses and counterexamples -/

/-- A filing whose root element wraps a `ReturnData` child holding
`TotalEmployeeCnt` with text `19`. -/
def docGood : XmlElem :=
  .node (toL "Return") none
    [.node (qtag "ReturnData") none
      [.node (qtag "TotalEmployeeCnt") (some (toL "19")) []]]

/-- A document whose root element is `ReturnData` itself, holding
`TotalEmployeeCnt` with text `19` (the document of the claim C6 example). -/
def docRootReturnData : XmlElem :=
  .node (qtag "ReturnData") none
    [.node (qtag "TotalEmployeeCnt") (some (toL "19")) []]

/-- A document with an element `Foo` that is present but has no stored
text (what the parser produces for `<Foo/>` or `<Foo></Foo>`). -/
def docEmptyText : XmlElem :=
  .node (toL "Return") none
    [.node (qtag "ReturnData") none [.node (qtag "Foo") none []]]

/-- A document with an element `Bar` whose stored text is the empty
string. -/
def docEmptyStr : XmlElem :=
  .node (toL "Return") none
    [.node (qtag "ReturnData") none [.node (qtag "Bar") (some []) []]]

/-- A document with an element `EmployeeCnt` whose text `N/A` is not
numeric. -/
def docNA : XmlElem :=
  .node (toL "Return") none
    [.node (qtag "ReturnData") none
      [.node (qtag "EmployeeCnt") (some (toL "N/A")) []]]

/-- A document in which no element matches the path `/Nope`. -/
def docMiss : XmlElem :=
  .node (toL "Return") none [.node (qtag "ReturnData") none []]

/-- A parser stand-in for witnesses: wrap the input in a leaf element. -/
def parse0Const : List Char → Option XmlElem :=
  fun cs => some (XmlElem.node cs none [])

/-! ### Helper lemmas -/

/-- A list that does not contain `<` does not start with it. -/
theorem startsWithLt_eq_false_of_no_lt {cs : List Char} (h : '<' ∉ cs) :
    startsWithLt cs = false := by
  cases cs with
  | nil => rfl
  | cons c rest =>
    have hc : c ≠ '<' := fun hEq => h (hEq ▸ List.mem_cons_self c rest)
    simp [startsWithLt, hc]

/-- Membership in the tail gives membership in the list. -/
theorem mem_of_tail {c : Char} {cs : List Char} (h : c ∈ cs.tail) : c ∈ cs := by
  cases cs with
  | nil => exact absurd h (List.not_mem_nil c)
  | cons d rest => exact List.mem_cons_of_mem d h

/-- On content with no `<`, the sanitize loop never exits, whatever the
iteration bound: the source loop diverges. -/
theorem stripLoop_none_of_no_lt : ∀ (n : Nat) {cs : List Char}, '<' ∉ cs →
    stripLoop n cs = none := by
  intro n
  induction n with
  | zero =>
    intro cs h
    simp [stripLoop, startsWithLt_eq_false_of_no_lt h]
  | succ m ih =>
    intro cs h
    have ht : '<' ∉ cs.tail := fun hm => h (mem_of_tail hm)
    simp [stripLoop, startsWithLt_eq_false_of_no_lt h, ih ht]

/-- On content that already starts with `<`, the sanitize loop exits at
once, whatever the bound. -/
theorem stripLoop_of_startsWithLt {t : List Char} (h : startsWithLt t = true)
    (n : Nat) : stripLoop n t = some t := by
  cases n <;> simp [stripLoop, h]

/-- Prepending junk characters (none of which is `<`) to content that
starts with `<` only makes the sanitize loop drop the junk. -/
theorem stripLoop_append_junk :
    ∀ (junk : List Char), (∀ c ∈ junk, c ≠ '<') →
      ∀ {t : List Char}, startsWithLt t = true →
        ∀ (n : Nat), stripLoop (junk.length + n) (junk ++ t) = some t := by
  intro junk
  induction junk with
  | nil =>
    intro _ t ht n
    simpa using stripLoop_of_startsWithLt ht n
  | cons c rest ih =>
    intro hj t ht n
    have hc : c ≠ '<' := hj c (List.mem_cons_self c rest)
    have hguard : startsWithLt (c :: (rest ++ t)) = false := by
      simp [startsWithLt, hc]
    have hlen : (c :: rest).length + n = (rest.length + n) + 1 := by
      simp [List.length_cons]; omega
    calc stripLoop ((c :: rest).length + n) ((c :: rest) ++ t)
        = stripLoop ((rest.length + n) + 1) (c :: (rest ++ t)) := by rw [hlen]; rfl
      _ = stripLoop (rest.length + n) (rest ++ t) := by simp [stripLoop, hguard]
      _ = some t := ih (fun d hd => hj d (List.mem_cons_of_mem c hd)) ht n

/-- Removing one leading slash commutes into `lstrip`. -/
theorem pyLstripSlash_cons_slash (p : List Char) :
    pyLstripSlash ('/' :: p) = pyLstripSlash p := by
  simp [pyLstripSlash, List.dropWhile]

/-- `lstrip("/")` ignores any block of leading slashes. -/
theorem pyLstripSlash_replicate (n : Nat) (p : List Char) :
    pyLstripSlash (List.replicate n '/' ++ p) = pyLstripSlash p := by
  induction n with
  | zero => rfl
  | succ m ih =>
    rw [List.replicate_succ, List.cons_append, pyLstripSlash_cons_slash]
    exact ih

/-- `lstrip("/")` is idempotent. -/
theorem pyLstripSlash_idem (p : List Char) :
    pyLstripSlash (pyLstripSlash p) = pyLstripSlash p := by
  induction p with
  | nil => rfl
  | cons c rest ih =>
    by_cases h : c = '/'
    · subst h
      simpa [pyLstripSlash, List.dropWhile] using ih
    · simp [pyLstripSlash, List.dropWhile, h]

/-- The spec's all-slashes strip equals Python's `lstrip("/")`. -/
theorem stripLeadingSlashes_eq (p : List Char) :
    stripLeadingSlashes p = pyLstripSlash p := by
  induction p with
  | nil => rfl
  | cons c rest ih =>
    by_cases h : c = '/'
    · subst h
      simpa [stripLeadingSlashes, pyLstripSlash, List.dropWhile] using ih
    · simp [stripLeadingSlashes, pyLstripSlash, List.dropWhile, h]

/-! ### Claim theorems -/

/-- Claim C1 (code behaviour at the failing input): on the input text
`abc`, which contains no `<` character, the sanitize loop of `from_file`
never exits — at every iteration bound it is still running — so the
construction diverges instead of terminating with a malformed-input error.
This refutes the claimed immediate error surfacing: the code contains an
unbounded strip loop (in Python, the tail of the empty string is the empty
string, so the loop guard never becomes true). -/
theorem claim_C1_sanitize_diverges :
    ∀ (parse0 : List Char → Option XmlElem) (n : Nat),
      stripLoop n (String.toList "abc") = none ∧
      from_file parse0 (String.toList "abc") = FromFileResult.diverges := by
  intro parse0 n
  refine ⟨stripLoop_none_of_no_lt n (by decide), rfl⟩

/-- Claim C3, counterexample: qualification does not follow the spec's
step 1 read literally ("strip any single leading slash") on every caller
path — on `//IRS990` the code strips both slashes while the literal
algorithm strips only one and produces an extra empty segment. -/
theorem claim_C3_counterexample :
    _add_namespace (String.toList "//IRS990")
        = String.toList "efile:ReturnData/efile:IRS990" ∧
    spec_qualify_singleStrip (String.toList "//IRS990")
        = String.toList "efile:ReturnData/efile:/efile:IRS990" ∧
    _add_namespace (String.toList "//IRS990")
        ≠ spec_qualify_singleStrip (String.toList "//IRS990") := by
  refine ⟨by decide, by decide, by decide⟩

/-- Claim C3, amended: path qualification strips all leading slashes (not
just a single one), splits on `/`, prepends `efile:ReturnData`, prefixes
every other segment with `efile:` and joins with `/`; the example
`/IRS990/FormationYr` qualifies to
`efile:ReturnData/efile:IRS990/efile:FormationYr`, and prepending one
slash to any path never changes the qualified result. -/
theorem claim_C3_amended :
    (∀ p : List Char, _add_namespace p = spec_qualify_allStrip p) ∧
    _add_namespace (String.toList "/IRS990/FormationYr")
        = String.toList "efile:ReturnData/efile:IRS990/efile:FormationYr" ∧
    (∀ p : List Char, _add_namespace ('/' :: p) = _add_namespace p) := by
  refine ⟨?_, by decide, ?_⟩
  · intro p
    unfold _add_namespace spec_qualify_allStrip
    rw [stripLeadingSlashes_eq]
  · intro p
    unfold _add_namespace
    rw [pyLstripSlash_cons_slash]

/-- Claim C7: construction from three leading junk characters (none of
them `<`) followed by text that starts with `<` succeeds with exactly the
same querier as construction from the text alone: the sanitize loop drops
precisely the junk. -/
theorem claim_C7_junk_stripped
    (parse0 : List Char → Option XmlElem) (c1 c2 c3 : Char) (t : List Char)
    (q : Querier)
    (h1 : c1 ≠ '<') (h2 : c2 ≠ '<') (h3 : c3 ≠ '<')
    (ht : t.head? = some '<')
    (hok : from_file parse0 t = FromFileResult.ok q) :
    from_file parse0 (c1 :: c2 :: c3 :: t) = FromFileResult.ok q := by
  have hlt : startsWithLt t = true := by simp [startsWithLt, ht]
  have hj : ∀ c ∈ [c1, c2, c3], c ≠ '<' := by
    intro c hc
    simp only [List.mem_cons, List.mem_singleton] at hc
    rcases hc with h | h | h
    · exact h ▸ h1
    · exact h ▸ h2
    · simp at h; exact h ▸ h3
  have hstrip2 : stripLoop (c1 :: c2 :: c3 :: t).length (c1 :: c2 :: c3 :: t)
      = some t := by
    have hlen : (c1 :: c2 :: c3 :: t).length = [c1, c2, c3].length + t.length := by
      simp
      omega
    rw [hlen]
    exact stripLoop_append_junk [c1, c2, c3] hj hlt t.length
  have hstrip1 : stripLoop t.length t = some t := stripLoop_of_startsWithLt hlt _
  unfold from_file at hok ⊢
  rw [hstrip2]
  rw [hstrip1] at hok
  exact hok

/-- Claim C7, witness: with a concrete parser stand-in, prepending the
junk `xyz` to the document text `<` constructs the same querier as the
text alone. -/
theorem claim_C7_witness :
    from_file parse0Const ('x' :: 'y' :: 'z' :: ['<'])
      = FromFileResult.ok (Querier.init (XmlElem.node ['<'] none [])) :=
  claim_C7_junk_stripped parse0Const 'x' 'y' 'z' ['<']
    (Querier.init (XmlElem.node ['<'] none []))
    (by decide) (by decide) (by decide) rfl rfl

/-- Claim C9: qualification of a path with any number of leading slashes
gives the same result as qualification of the path with its leading
slashes removed — all leading slashes are stripped, not just one. -/
theorem claim_C9_all_leading_slashes (n : Nat) (p : List Char) :
    _add_namespace (List.replicate n '/' ++ p) = _add_namespace (pyLstripSlash p) := by
  unfold _add_namespace
  rw [pyLstripSlash_replicate, pyLstripSlash_idem]

/-- Claim C10: qualification prefixes every segment with `efile:`
unconditionally — a segment already carrying the namespace prefix becomes
doubly prefixed (`efile:efile:Tag`), and the empty path qualifies to
`efile:ReturnData/efile:` (its one empty segment is still prefixed). -/
theorem claim_C10_unconditional :
    _add_namespace (String.toList "efile:Tag")
        = String.toList "efile:ReturnData/efile:efile:Tag" ∧
    _add_namespace (String.toList "")
        = String.toList "efile:ReturnData/efile:" := by
  refine ⟨by decide, by decide⟩

/-- Claim C2, counterexample: in `docEmptyText` the qualified path for
`/Foo` resolves and matches an element that is present but has empty text
content (the parser stores no text for an empty element), yet `find_str`
answers `Except.ok none` — exactly the absent result, the same answer as
for the unmatched path `/Missing` — not an empty string: the three-way
distinction is not preserved. -/
theorem claim_C2_counterexample :
    (pySplit (_add_namespace (String.toList "/Foo"))).mapM
        (resolveSeg (Querier.init docEmptyText)._namespaces)
      = some [qtag "ReturnData", qtag "Foo"] ∧
    (etFind docEmptyText [qtag "ReturnData", qtag "Foo"]).map XmlElem.text
      = some none ∧
    (Querier.init docEmptyText).find_str (String.toList "/Foo") = Except.ok none ∧
    (Querier.init docEmptyText).find_str (String.toList "/Missing") = Except.ok none := by
  refine ⟨rfl, rfl, rfl, rfl⟩

/-- Claim C2, amended: when the qualified path matches an element whose
stored text is a string `s` — including the empty string — `find_str`
returns exactly `s`, distinct from the absent result; but an element whose
stored text is null (what the parser produces for empty content) yields
the same null answer as an absent element. -/
theorem claim_C2_amended (q : Querier) (path : List Char)
    (segs : List (List Char)) (e : XmlElem) (s : List Char)
    (hres : (pySplit (_add_namespace path)).mapM (resolveSeg q._namespaces) = some segs)
    (hfind : etFind q._tree segs = some e)
    (htext : e.text = some s) :
    q.find_str path = Except.ok (some s) ∧
    Except.ok (some s) ≠ (Except.ok none : Except PyErr (Option (List Char))) := by
  constructor
  · simp only [Querier.find_str, hres, hfind, htext]
  · simp

/-- Claim C2, witness: in `docEmptyStr` the element `Bar` stores the empty
string as its text, and `find_str` returns that empty string, which is not
the absent result. -/
theorem claim_C2_witness :
    (Querier.init docEmptyStr).find_str (String.toList "/Bar")
        = Except.ok (some []) ∧
    Except.ok (some ([] : List Char)) ≠ (Except.ok none : Except PyErr (Option (List Char))) :=
  claim_C2_amended (Querier.init docEmptyStr) (String.toList "/Bar")
    [qtag "ReturnData", qtag "Bar"] (XmlElem.node (qtag "Bar") (some []) []) []
    rfl rfl rfl

/-- Claim C4: when the string lookup finds text that `int()` rejects,
`find_int` propagates the conversion error (ValueError), and likewise
`find_float` for text `float()` rejects; neither returns the absent result
nor any number in that case. -/
theorem claim_C4_conversion_error :
    (∀ (q : Querier) (path s : List Char),
        q.find_str path = Except.ok (some s) → pyIntParse s = none →
        q.find_int path = Except.error PyErr.valueError) ∧
    (∀ (q : Querier) (path s : List Char),
        q.find_str path = Except.ok (some s) → pyFloatAccepts s = false →
        q.find_float path = Except.error PyErr.valueError) := by
  constructor
  · intro q path s h1 h2
    simp [Querier.find_int, h1, h2]
  · intro q path s h1 h2
    simp [Querier.find_float, h1, h2]

/-- Claim C4, witness: on `docNA`, whose element `EmployeeCnt` holds the
non-numeric text `N/A`, both typed lookups raise the conversion error. -/
theorem claim_C4_witness :
    (Querier.init docNA).find_int (String.toList "/EmployeeCnt")
        = Except.error PyErr.valueError ∧
    (Querier.init docNA).find_float (String.toList "/EmployeeCnt")
        = Except.error PyErr.valueError :=
  ⟨claim_C4_conversion_error.1 (Querier.init docNA) (String.toList "/EmployeeCnt")
      (toL "N/A") rfl rfl,
   claim_C4_conversion_error.2 (Querier.init docNA) (String.toList "/EmployeeCnt")
      (toL "N/A") rfl rfl⟩

/-- Claim C5: when the qualified path resolves but matches no element in
the tree, `find_str`, `find_int` and `find_float` all return the absent
result, not an error. -/
theorem claim_C5_lookup_miss (q : Querier) (path : List Char)
    (segs : List (List Char))
    (hres : (pySplit (_add_namespace path)).mapM (resolveSeg q._namespaces) = some segs)
    (hmiss : etFind q._tree segs = none) :
    q.find_str path = Except.ok none ∧
    q.find_int path = Except.ok none ∧
    q.find_float path = Except.ok none := by
  have hs : q.find_str path = Except.ok none := by
    simp only [Querier.find_str, hres, hmiss]
  exact ⟨hs, by simp [Querier.find_int, hs], by simp [Querier.find_float, hs]⟩

/-- Claim C5, witness: in `docMiss` nothing matches `/Nope`, and all three
lookups answer the absent result. -/
theorem claim_C5_witness :
    (Querier.init docMiss).find_str (String.toList "/Nope") = Except.ok none ∧
    (Querier.init docMiss).find_int (String.toList "/Nope") = Except.ok none ∧
    (Querier.init docMiss).find_float (String.toList "/Nope") = Except.ok none :=
  claim_C5_lookup_miss (Querier.init docMiss) (String.toList "/Nope")
    [qtag "ReturnData", qtag "Nope"] rfl rfl

/-- Claim C6, counterexample: on the claim's own example document — whose
root element is `ReturnData` itself, holding `TotalEmployeeCnt` with text
`19` — `find_int("/TotalEmployeeCnt")` returns the absent result, not 19:
the path search starts at the root's children, so the root `ReturnData` is
never matched by the qualified path `efile:ReturnData/efile:TotalEmployeeCnt`. -/
theorem claim_C6_counterexample :
    (Querier.init docRootReturnData).find_int (String.toList "/TotalEmployeeCnt")
        = Except.ok none ∧
    (Querier.init docRootReturnData).find_int (String.toList "/TotalEmployeeCnt")
        ≠ Except.ok (some (19 : Int)) := by
  refine ⟨rfl, fun h => ?_⟩
  have h2 : (Except.ok (none : Option Int) : Except PyErr (Option Int))
      = Except.ok (some (19 : Int)) := h
  simp at h2

/-- Claim C6, amended: whenever the string lookup finds text that is valid
base-10 integer syntax, `find_int` returns the parsed integer; in
particular `find_int("/TotalEmployeeCnt")` returns 19 on a document whose
root element contains a `ReturnData` child holding `TotalEmployeeCnt` with
text `19` (`ReturnData` must be a child of the root, not the root itself,
for the relative path search to reach it). -/
theorem claim_C6_amended :
    (∀ (q : Querier) (path s : List Char) (n : Int),
        q.find_str path = Except.ok (some s) → pyIntParse s = some n →
        q.find_int path = Except.ok (some n)) ∧
    (Querier.init docGood).find_int (String.toList "/TotalEmployeeCnt")
        = Except.ok (some (19 : Int)) := by
  constructor
  · intro q path s n h1 h2
    simp [Querier.find_int, h1, h2]
  · rfl

/-- Claim C6, witness: the general part of the amended claim instantiated
on `docGood`, whose `TotalEmployeeCnt` text `19` parses to the integer 19. -/
theorem claim_C6_witness :
    (Querier.init docGood).find_int (String.toList "/TotalEmployeeCnt")
        = Except.ok (some (19 : Int)) :=
  claim_C6_amended.1 (Querier.init docGood) (String.toList "/TotalEmployeeCnt")
    (toL "19") 19 rfl rfl

/-- Claim C8: a querier is never mutated after construction — `__init__`
stores exactly the single namespace entry `efile ↦ http://www.irs.gov/efile`;
the state-passing form of `find_str` returns the receiver unchanged (its
body assigns no attribute), in particular the tree is unchanged by every
lookup; and a repeated call with the same path on the post-call state
returns the same result. -/
theorem claim_C8_immutable (tree : XmlElem) (q : Querier) (path : List Char) :
    (Querier.init tree)._namespaces = [(String.toList "efile", efileURI)] ∧
    (q.find_strS path).2 = q ∧
    (q.find_strS path).2._tree = q._tree ∧
    ((q.find_strS path).2.find_strS path).1 = (q.find_strS path).1 :=
  ⟨rfl, rfl, rfl, rfl⟩
